import Mathlib

/- Verification of the validation and rule-registry engine of the Data Alchemist
   resource-allocation configurator.

   The definitions below are a shallow embedding of the TypeScript source:
   `validateAllData`, `checkDuplicates` and `handleUpdateCell` from
   `src/components/tabs/data-tab.tsx`, and `handleNaturalLanguageConvert` from the
   rules tab.  JavaScript peculiarities are modelled explicitly: truthiness guards
   on optional numeric fields (`x && x < 1` skips `x = 0`), `Number(s)` / `isNaN`
   string-to-number conversion, `parseInt(s, 10)` prefix parsing with the `|| 0`
   fallback, `JSON.parse` syntax checking, and JS `Set` first-occurrence ordering. -/

namespace DataAlchemist

/- JavaScript whitespace, as trimmed by `Number`, `parseInt` and `String.trim`. -/
def isJsWhitespace (c : Char) : Bool :=
  c = ' ' || c = '\t' || c = '\n' || c = '\r' || c = '\x0b' || c = '\x0c' ||
  c = '\u00a0' || c = '\ufeff' || c = '\u2028' || c = '\u2029'

/- `String(s).replace(/\D/g, '')`: keep only ASCII decimal digits. -/
def stripNonDigits (s : String) : String :=
  String.mk (s.data.filter Char.isDigit)

def digitsToNat (cs : List Char) : Nat :=
  cs.foldl (fun acc c => 10 * acc + (c.toNat - '0'.toNat)) 0

/- ECMAScript `parseInt(s, 10)`: skip leading whitespace, optional sign, then the
   longest prefix of decimal digits; `none` models NaN (no digits found). -/
def parseIntJS (s : String) : Option Int :=
  let cs := s.data.dropWhile isJsWhitespace
  let signed : Int × List Char :=
    match cs with
    | '-' :: rest => (-1, rest)
    | '+' :: rest => (1, rest)
    | _ => (1, cs)
  let digits := signed.2.takeWhile Char.isDigit
  if digits.isEmpty then none else some (signed.1 * (digitsToNat digits : Int))

/- `parseInt(...) || 0`: NaN (and 0 itself) collapse to 0. -/
def jsIntOrZero : Option Int → Int
  | none => 0
  | some v => v

def hasLeadingDigit : List Char → Bool
  | c :: _ => c.isDigit
  | [] => false

/- The regex `^\d+-\d+$` from the PreferredPhases check. -/
def isPhaseRange (s : String) : Bool :=
  hasLeadingDigit s.data &&
  (match s.data.dropWhile Char.isDigit with
   | '-' :: rest => hasLeadingDigit rest && (rest.dropWhile Char.isDigit).isEmpty
   | _ => false)

def isHexDigitChar (c : Char) : Bool :=
  c.isDigit || ('a' ≤ c && c ≤ 'f') || ('A' ≤ c && c ≤ 'F')

def isOctalDigitChar (c : Char) : Bool := '0' ≤ c && c ≤ '7'

def isBinaryDigitChar (c : Char) : Bool := c = '0' || c = '1'

/- Optional exponent part of a string numeric literal, which must reach the end. -/
def matchExponentTail : List Char → Bool
  | [] => true
  | c :: rest =>
    (c = 'e' || c = 'E') &&
    (match rest with
     | '+' :: ds => hasLeadingDigit ds && (ds.dropWhile Char.isDigit).isEmpty
     | '-' :: ds => hasLeadingDigit ds && (ds.dropWhile Char.isDigit).isEmpty
     | ds => hasLeadingDigit ds && (ds.dropWhile Char.isDigit).isEmpty)

/- Unsigned part of an ECMAScript StrDecimalLiteral:
   `Infinity`, `digits [. digits?] exp?` or `. digits exp?`. -/
def matchUnsignedDecimal (cs : List Char) : Bool :=
  if cs = "Infinity".data then true
  else if hasLeadingDigit cs then
    match cs.dropWhile Char.isDigit with
    | '.' :: rest => matchExponentTail (rest.dropWhile Char.isDigit)
    | rest => matchExponentTail rest
  else
    match cs with
    | '.' :: rest => hasLeadingDigit rest && matchExponentTail (rest.dropWhile Char.isDigit)
    | _ => false

def matchSignedDecimal : List Char → Bool
  | '+' :: rest => matchUnsignedDecimal rest
  | '-' :: rest => matchUnsignedDecimal rest
  | cs => matchUnsignedDecimal cs

/- ECMAScript StrNumericLiteral: signed decimal, or unsigned hex/octal/binary. -/
def matchNumericLiteral (cs : List Char) : Bool :=
  match cs with
  | '0' :: x :: rest =>
    if x = 'x' || x = 'X' then !rest.isEmpty && rest.all isHexDigitChar
    else if x = 'o' || x = 'O' then !rest.isEmpty && rest.all isOctalDigitChar
    else if x = 'b' || x = 'B' then !rest.isEmpty && rest.all isBinaryDigitChar
    else matchSignedDecimal cs
  | _ => matchSignedDecimal cs

/- `isNaN(Number(s))`: the empty (or all-whitespace) string converts to 0;
   otherwise the trimmed string must be a complete numeric literal. -/
def jsNumberIsNaN (s : String) : Bool :=
  let cs := ((s.data.dropWhile isJsWhitespace).reverse.dropWhile isJsWhitespace).reverse
  if cs.isEmpty then false else !matchNumericLiteral cs

/- JSON whitespace accepted by `JSON.parse`. -/
def skipJsonWs (cs : List Char) : List Char :=
  cs.dropWhile fun c => c = ' ' || c = '\t' || c = '\n' || c = '\r'

/- Consume an expected literal tail such as `rue` after `t`. -/
def dropLit : List Char → List Char → Option (List Char)
  | [], cs => some cs
  | l :: ls, c :: cs => if c = l then dropLit ls cs else none
  | _ :: _, [] => none

/- Body of a JSON string after the opening quote, returning the input after the
   closing quote. -/
def jsonStringRest : Nat → List Char → Option (List Char)
  | 0, _ => none
  | _ + 1, [] => none
  | fuel + 1, c :: rest =>
    if c = '"' then some rest
    else if c = '\\' then
      match rest with
      | [] => none
      | e :: rest2 =>
        if e = '"' || e = '\\' || e = '/' || e = 'b' || e = 'f' || e = 'n' || e = 'r' || e = 't' then
          jsonStringRest fuel rest2
        else if e = 'u' then
          match rest2 with
          | h1 :: h2 :: h3 :: h4 :: rest3 =>
            if isHexDigitChar h1 && isHexDigitChar h2 && isHexDigitChar h3 && isHexDigitChar h4 then
              jsonStringRest fuel rest3
            else none
          | _ => none
        else none
    else if c.toNat < 32 then none
    else jsonStringRest fuel rest

/- Optional fraction and exponent of a JSON number. -/
def jsonFracExp (cs : List Char) : Option (List Char) :=
  let afterFrac : Option (List Char) :=
    match cs with
    | '.' :: rest =>
      if hasLeadingDigit rest then some (rest.dropWhile Char.isDigit) else none
    | _ => some cs
  match afterFrac with
  | none => none
  | some cs2 =>
    match cs2 with
    | e :: rest =>
      if e = 'e' || e = 'E' then
        let rest2 := match rest with
          | '+' :: r => r
          | '-' :: r => r
          | r => r
        if hasLeadingDigit rest2 then some (rest2.dropWhile Char.isDigit) else none
      else some cs2
    | [] => some cs2

/- A JSON number: `-? int frac? exp?` where int is `0` or a nonzero-led digit run. -/
def jsonNumber (cs : List Char) : Option (List Char) :=
  let cs2 := match cs with
    | '-' :: rest => rest
    | _ => cs
  match cs2 with
  | '0' :: rest => jsonFracExp rest
  | c :: rest => if c.isDigit then jsonFracExp (rest.dropWhile Char.isDigit) else none
  | [] => none

inductive JsonMode where
  | value
  | arrFirst
  | arrRest
  | objFirst
  | objMember
  | objRest

/- Fuel-indexed recogniser for the `JSON.parse` grammar, returning the rest of
   the input after one value (or one array/object continuation). -/
def jsonRun : Nat → JsonMode → List Char → Option (List Char)
  | 0, _, _ => none
  | fuel + 1, JsonMode.value, cs =>
    match cs with
    | '{' :: rest => jsonRun fuel JsonMode.objFirst (skipJsonWs rest)
    | '[' :: rest => jsonRun fuel JsonMode.arrFirst (skipJsonWs rest)
    | '"' :: rest => jsonStringRest (rest.length + 1) rest
    | 't' :: rest => dropLit "rue".data rest
    | 'f' :: rest => dropLit "alse".data rest
    | 'n' :: rest => dropLit "ull".data rest
    | _ => jsonNumber cs
  | fuel + 1, JsonMode.arrFirst, cs =>
    match cs with
    | ']' :: rest => some rest
    | _ =>
      match jsonRun fuel JsonMode.value cs with
      | some rest => jsonRun fuel JsonMode.arrRest (skipJsonWs rest)
      | none => none
  | fuel + 1, JsonMode.arrRest, cs =>
    match cs with
    | ']' :: rest => some rest
    | ',' :: rest =>
      match jsonRun fuel JsonMode.value (skipJsonWs rest) with
      | some r2 => jsonRun fuel JsonMode.arrRest (skipJsonWs r2)
      | none => none
    | _ => none
  | fuel + 1, JsonMode.objFirst, cs =>
    match cs with
    | '}' :: rest => some rest
    | _ => jsonRun fuel JsonMode.objMember cs
  | fuel + 1, JsonMode.objMember, cs =>
    match cs with
    | '"' :: rest =>
      match jsonStringRest (rest.length + 1) rest with
      | some afterKey =>
        match skipJsonWs afterKey with
        | ':' :: afterColon =>
          match jsonRun fuel JsonMode.value (skipJsonWs afterColon) with
          | some afterVal => jsonRun fuel JsonMode.objRest (skipJsonWs afterVal)
          | none => none
        | _ => none
      | none => none
    | _ => none
  | fuel + 1, JsonMode.objRest, cs =>
    match cs with
    | '}' :: rest => some rest
    | ',' :: rest => jsonRun fuel JsonMode.objMember (skipJsonWs rest)
    | _ => none

/- `JSON.parse(s)` succeeds: one JSON value surrounded by whitespace. -/
def jsonParses (s : String) : Bool :=
  match jsonRun (3 * s.length + 9) JsonMode.value (skipJsonWs s.data) with
  | some rest => (skipJsonWs rest).isEmpty
  | none => false

/- `Array.prototype.join(sep)`. -/
def joinWith (sep : String) : List String → String
  | [] => ""
  | [x] => x
  | x :: xs => x ++ sep ++ joinWith sep xs

/- `String.prototype.split(',')`. -/
def splitCommaAux : List Char → List Char → List String
  | [], acc => [String.mk acc.reverse]
  | ',' :: rest, acc => String.mk acc.reverse :: splitCommaAux rest []
  | c :: rest, acc => splitCommaAux rest (c :: acc)

def splitComma (s : String) : List String := splitCommaAux s.data []

/- `String.prototype.trim()`. -/
def jsTrim (s : String) : String :=
  String.mk (((s.data.dropWhile isJsWhitespace).reverse.dropWhile isJsWhitespace).reverse)

/- `String(value).split(',').map(s => s.trim()).filter(Boolean)`. -/
def splitTrimFilter (value : String) : List String :=
  ((splitComma value).map jsTrim).filter fun s => s ≠ ""

/- JS `Set` built from a list and then iterated: first-occurrence order. -/
def dedupFirstAux : List String → List String → List String
  | [], _ => []
  | x :: xs, seen =>
    if x ∈ seen then dedupFirstAux xs seen else x :: dedupFirstAux xs (x :: seen)

def dedupFirst (l : List String) : List String := dedupFirstAux l []

/- The data model of `@/types`: three entity kinds with an internal `id` distinct
   from the domain identifier.  Optional fields are `Option`; a missing or empty
   domain id is modelled by the empty string (both are falsy in JS). -/

inductive EntityType where
  | clients
  | workers
  | tasks
deriving DecidableEq

structure Client where
  id : String
  ClientID : String
  ClientGroup : Option String := none
  PriorityLevel : Option Int := none
  RequestedTaskIDs : Option (List String) := none
  AttributesJSON : Option String := none
deriving DecidableEq

structure Worker where
  id : String
  WorkerID : String
  WorkerGroup : Option String := none
  Skills : Option (List String) := none
  AvailableSlots : Option (List String) := none
  MaxLoadPerPhase : Option Int := none
  MaxConcurrent : Option Int := none
deriving DecidableEq

inductive PhaseVal where
  | num (n : Int)
  | str (s : String)
deriving DecidableEq

structure Task where
  id : String
  TaskID : String
  RequiredSkills : Option (List String) := none
  PreferredPhases : Option (List PhaseVal) := none
  Duration : Option Int := none
  CoRunTaskIDs : Option (List String) := none
deriving DecidableEq

structure ValidationError where
  entityType : EntityType
  id : String
  field : String
  message : String
  suggestion : Option String := none
  rowId : Option String := none
deriving DecidableEq

structure EntityStore where
  clients : List Client
  workers : List Worker
  tasks : List Task
deriving DecidableEq

/- `checkDuplicates` from `validateAllData`: scan in store order with a seen-id
   set; a falsy id is flagged missing (under the internal id), a repeated id is
   flagged as duplicate.  The id is added to the set in every case. -/
def checkDuplicatesAux (et : EntityType) (idKey : String) :
    List (String × String) → List String → List ValidationError
  | [], _ => []
  | (iid, did) :: rest, seen =>
    (if did = "" then
      [{ entityType := et, id := iid, field := idKey, message := "Required ID is missing." }]
    else if did ∈ seen then
      [{ entityType := et, id := did, field := idKey, message := "Duplicate ID found: " ++ did ++ "." }]
    else []) ++ checkDuplicatesAux et idKey rest (did :: seen)

def checkDuplicates (et : EntityType) (idKey : String) (items : List (String × String)) :
    List ValidationError :=
  checkDuplicatesAux et idKey items []

/- The JS conditional-push idiom `if (x && P(x)) errors.push(err)` on an optional
   field: absent (undefined) and falsy values emit nothing. -/
def optCheck {α : Type} (o : Option α) (p : α → Bool) (err : α → List ValidationError) :
    List ValidationError :=
  match o with
  | some v => if p v then err v else []
  | none => []

/- Per-client checks.  Note the JS truthiness guard `c.PriorityLevel && ...`:
   `PriorityLevel = 0` is falsy and is never range-checked.  Likewise an empty
   `AttributesJSON` string is falsy and skips the JSON check. -/
def validateClient (allTaskIds : List String) (c : Client) : List ValidationError :=
  optCheck c.PriorityLevel (fun pl => pl ≠ 0 ∧ (pl < 1 ∨ pl > 5)) (fun _ =>
    [{ entityType := EntityType.clients, id := c.ClientID, field := "PriorityLevel",
       message := "Must be between 1-5." }]) ++
  optCheck c.AttributesJSON (fun attrs => attrs ≠ "" ∧ jsonParses attrs = false) (fun _ =>
    [{ entityType := EntityType.clients, id := c.ClientID, field := "AttributesJSON",
       message := "Invalid JSON format." }]) ++
  ((c.RequestedTaskIDs.getD []).flatMap fun tid =>
    if tid ∈ allTaskIds then []
    else
      [{ entityType := EntityType.clients, id := c.ClientID, field := "RequestedTaskIDs",
         message := "Unknown TaskID: " ++ tid ++ "." }])

/- The advisory suggestion produced in the same client loop. -/
def clientSuggestion (c : Client) : List String :=
  if c.PriorityLevel = some 1 ∧ (c.RequestedTaskIDs.getD []).length > 5 then
    ["Client " ++ c.ClientID ++ " has the highest priority (1) but requests many tasks (" ++
      toString (c.RequestedTaskIDs.getD []).length ++ "). This might be unusual."]
  else []

/- Per-worker checks.  `w.MaxConcurrent && w.MaxConcurrent < 1` skips the value 0
   by truthiness; the AvailableSlots check fires once per worker and carries the
   digit-stripped suggestion built from every element. -/
def validateWorker (w : Worker) : List ValidationError :=
  optCheck w.MaxLoadPerPhase (fun ml => ml ≠ 0 ∧ ml < 0) (fun _ =>
    [{ entityType := EntityType.workers, id := w.WorkerID, field := "MaxLoadPerPhase",
       message := "Cannot be negative." }]) ++
  optCheck w.MaxConcurrent (fun mc => mc ≠ 0 ∧ mc < 1) (fun _ =>
    [{ entityType := EntityType.workers, id := w.WorkerID, field := "MaxConcurrent",
       message := "Must be at least 1." }]) ++
  optCheck w.AvailableSlots (fun slots => slots.any jsNumberIsNaN) (fun slots =>
    [{ entityType := EntityType.workers, id := w.WorkerID, field := "AvailableSlots",
       message := "Contains non-numeric values.",
       suggestion := some (joinWith ", " (slots.map stripNonDigits)) }])

/- Per-task checks. -/
def validateTask (allWorkerSkills : List String) (t : Task) : List ValidationError :=
  optCheck t.Duration (fun d => d ≠ 0 ∧ d < 1) (fun _ =>
    [{ entityType := EntityType.tasks, id := t.TaskID, field := "Duration",
       message := "Must be at least 1." }]) ++
  ((t.RequiredSkills.getD []).flatMap fun skill =>
    if skill ∈ allWorkerSkills then []
    else
      [{ entityType := EntityType.tasks, id := t.TaskID, field := "RequiredSkills",
         message := "No worker has the required skill: " ++ skill ++ "." }]) ++
  optCheck t.PreferredPhases
    (fun phases => phases.any fun p => match p with
      | PhaseVal.str s => !isPhaseRange s
      | PhaseVal.num _ => false)
    (fun _ =>
      [{ entityType := EntityType.tasks, id := t.TaskID, field := "PreferredPhases",
         message := "Invalid range format. Use \"start-end\"." }])

/- `validateAllData` from `data-tab.tsx`: index sets, duplicate scans for the
   three collections in order, per-entity checks, then the global skill-coverage
   pass; suggestions are collected separately. -/
def validateAllData (store : EntityStore) : List ValidationError × List String :=
  let allTaskIds := store.tasks.map Task.TaskID
  let allWorkerSkills := store.workers.flatMap fun w => w.Skills.getD []
  let allRequiredSkills := dedupFirst (store.tasks.flatMap fun t => t.RequiredSkills.getD [])
  let allErrors :=
    checkDuplicates EntityType.clients "ClientID" (store.clients.map fun c => (c.id, c.ClientID)) ++
    checkDuplicates EntityType.workers "WorkerID" (store.workers.map fun w => (w.id, w.WorkerID)) ++
    checkDuplicates EntityType.tasks "TaskID" (store.tasks.map fun t => (t.id, t.TaskID)) ++
    (store.clients.flatMap fun c => validateClient allTaskIds c) ++
    (store.workers.flatMap fun w => validateWorker w) ++
    (store.tasks.flatMap fun t => validateTask allWorkerSkills t) ++
    (allRequiredSkills.flatMap fun skill =>
      if skill ∈ allWorkerSkills then []
      else
        [{ entityType := EntityType.tasks, id := "Global", field := "Skill Coverage",
           message := "The skill \x27" ++ skill ++ "\x27 is required by a task but not provided by any worker." }])
  let allSuggestions := store.clients.flatMap fun c => clientSuggestion c
  (allErrors, allSuggestions)

/- Field coercion shared by `handleUpdateCell`, `handleNaturalLanguageModify` and
   `applyAIFix`: list-typed fields are split on commas, trimmed and empties
   dropped, then re-joined to match the cell value that was already stored;
   numeric fields go through `parseInt(..., 10) || 0` and are stored as strings. -/

inductive CellValue where
  | str (s : String)
  | arr (l : List String)
  | num (n : Int)
deriving DecidableEq

def listTypedFields : List String :=
  ["RequestedTaskIDs", "Skills", "RequiredSkills", "CoRunTaskIDs", "AvailableSlots", "PreferredPhases"]

def numericTypedFields : List String :=
  ["PriorityLevel", "Duration", "MaxLoadPerPhase", "MaxConcurrent"]

def coerceCellValue (field : String) (oldValue : CellValue) (value : String) : CellValue :=
  if field ∈ listTypedFields then
    let arrValue := splitTrimFilter value
    match oldValue with
    | CellValue.str _ => CellValue.str (joinWith ", " arrValue)
    | _ => CellValue.arr arrValue
  else if field ∈ numericTypedFields then
    CellValue.str (toString (jsIntOrZero (parseIntJS value)))
  else CellValue.str value

/- The rule registry and the translation boundary of the rules tab. -/

structure RuleParams where
  taskIds : List String := []
deriving DecidableEq

structure Rule where
  id : String
  type : String
  params : RuleParams
deriving DecidableEq

/- A candidate produced by the external translator; `none` models an absent (or
   null) field, and an empty `type` string is falsy as well. -/
structure CandidateRule where
  type : Option String := none
  params : Option RuleParams := none
deriving DecidableEq

/- `handleNaturalLanguageConvert`: `if (!aiResponseJson.type || !aiResponseJson.params)
   throw` — on shape failure the registry is returned unchanged with a failure
   flag; otherwise the candidate is appended with a fresh internal id. -/
def handleNaturalLanguageConvert (rules : List Rule) (newId : String) (resp : CandidateRule) :
    List Rule × Bool :=
  match resp.type, resp.params with
  | some t, some p =>
    if t = "" then (rules, false)
    else (rules ++ [{ id := newId, type := t, params := p }], true)
  | _, _ => (rules, false)

/- Everything below validateAllData except the duplicate scans, used to state the
   duplicate-scan characterisation against the full validator output. -/
def nonDuplicateErrors (store : EntityStore) : List ValidationError :=
  let allTaskIds := store.tasks.map Task.TaskID
  let allWorkerSkills := store.workers.flatMap fun w => w.Skills.getD []
  let allRequiredSkills := dedupFirst (store.tasks.flatMap fun t => t.RequiredSkills.getD [])
  (store.clients.flatMap fun c => validateClient allTaskIds c) ++
  (store.workers.flatMap fun w => validateWorker w) ++
  (store.tasks.flatMap fun t => validateTask allWorkerSkills t) ++
  (allRequiredSkills.flatMap fun skill =>
    if skill ∈ allWorkerSkills then []
    else
      [{ entityType := EntityType.tasks, id := "Global", field := "Skill Coverage",
         message := "The skill \x27" ++ skill ++ "\x27 is required by a task but not provided by any worker." }])

/- The duplicate scan as the specification words it, indexed by position: the
   first occurrence of a non-empty id is never flagged, a second or later
   occurrence is flagged as a duplicate, and a missing or empty id is flagged
   as missing regardless of duplication. -/
def duplicateScanSpec (et : EntityType) (idKey : String) (items : List (String × String)) :
    List ValidationError :=
  (List.range items.length).flatMap fun i =>
    if (items.getD i ("", "")).2 = "" then
      [{ entityType := et, id := (items.getD i ("", "")).1, field := idKey,
         message := "Required ID is missing." }]
    else if (items.getD i ("", "")).2 ∈ (items.take i).map Prod.snd then
      [{ entityType := et, id := (items.getD i ("", "")).2, field := idKey,
         message := "Duplicate ID found: " ++ (items.getD i ("", "")).2 ++ "." }]
    else []

/- Predicates used to count diagnostics of a given kind. -/

def isFieldError (et : EntityType) (fld : String) (e : ValidationError) : Bool :=
  decide (e.entityType = et ∧ e.field = fld)

def isRequiredSkillError (tid sk : String) (e : ValidationError) : Bool :=
  decide (e.entityType = EntityType.tasks ∧ e.id = tid ∧ e.field = "RequiredSkills" ∧
    e.message = "No worker has the required skill: " ++ sk ++ ".")

def isCoverageError (sk : String) (e : ValidationError) : Bool :=
  decide (e.entityType = EntityType.tasks ∧ e.id = "Global" ∧ e.field = "Skill Coverage" ∧
    e.message = "The skill \x27" ++ sk ++ "\x27 is required by a task but not provided by any worker.")

/- Generic counting helpers. -/

theorem countP_flatMap_zero {α β : Type} (p : β → Bool) (f : α → List β) (l : List α)
    (h : ∀ a ∈ l, (f a).countP p = 0) : (l.flatMap f).countP p = 0 := by
  induction l with
  | nil => simp
  | cons x xs ih =>
    rw [List.flatMap_cons, List.countP_append, h x (List.mem_cons_self x xs),
      ih fun a ha => h a (List.mem_cons_of_mem x ha)]

theorem optCheck_mem {α : Type} {o : Option α} {p : α → Bool} {err : α → List ValidationError}
    {e : ValidationError} (he : e ∈ optCheck o p err) :
    ∃ v, o = some v ∧ p v = true ∧ e ∈ err v := by
  rcases o with _ | v
  · simp [optCheck] at he
  · simp only [optCheck] at he
    split at he
    · exact ⟨v, rfl, by assumption, he⟩
    · simp at he

theorem countP_optCheck {α : Type} (o : Option α) (p : α → Bool)
    (err : α → List ValidationError) (q : ValidationError → Bool) :
    (optCheck o p err).countP q =
      match o with
      | some v => if p v then (err v).countP q else 0
      | none => 0 := by
  rcases o with _ | v
  · simp [optCheck]
  · simp only [optCheck]
    split <;> simp

theorem countP_singleton (q : ValidationError → Bool) (e : ValidationError) :
    List.countP q [e] = if q e then 1 else 0 := by
  simp [List.countP_cons]

theorem flatMap_congr_fun {α β : Type} {l : List α} {f g : α → List β}
    (h : ∀ a, f a = g a) : l.flatMap f = l.flatMap g := by
  induction l with
  | nil => rfl
  | cons x xs ih => rw [List.flatMap_cons, List.flatMap_cons, h x, ih]

theorem append_mid_inj (pre suf a b : String) : pre ++ a ++ suf = pre ++ b ++ suf ↔ a = b := by
  constructor
  · intro h
    have hd := congrArg String.data h
    simp only [String.data_append] at hd
    exact String.ext (List.append_cancel_left (List.append_cancel_right hd))
  · intro h
    rw [h]

/- Shapes of the errors each component can emit. -/

theorem checkDuplicatesAux_mem (et : EntityType) (idKey : String) :
    ∀ (items : List (String × String)) (seen : List String) (e : ValidationError),
      e ∈ checkDuplicatesAux et idKey items seen → e.entityType = et ∧ e.field = idKey := by
  intro items
  induction items with
  | nil =>
    intro seen e he
    simp [checkDuplicatesAux] at he
  | cons hd rest ih =>
    intro seen e he
    obtain ⟨iid, did⟩ := hd
    simp only [checkDuplicatesAux] at he
    rcases List.mem_append.1 he with h | h
    · split at h
      · simp only [List.mem_singleton] at h
        subst h
        exact ⟨rfl, rfl⟩
      · split at h
        · simp only [List.mem_singleton] at h
          subst h
          exact ⟨rfl, rfl⟩
        · simp at h
    · exact ih (did :: seen) e h

theorem validateClient_mem (allTaskIds : List String) (c : Client) (e : ValidationError)
    (he : e ∈ validateClient allTaskIds c) :
    e.entityType = EntityType.clients ∧
      (e.field = "PriorityLevel" ∨ e.field = "AttributesJSON" ∨ e.field = "RequestedTaskIDs") := by
  unfold validateClient at he
  rcases List.mem_append.1 he with h | h
  · rcases List.mem_append.1 h with h2 | h2
    · obtain ⟨v, -, -, h3⟩ := optCheck_mem h2
      simp only [List.mem_singleton] at h3
      subst h3
      simp
    · obtain ⟨v, -, -, h3⟩ := optCheck_mem h2
      simp only [List.mem_singleton] at h3
      subst h3
      simp
  · rcases List.mem_flatMap.1 h with ⟨tid, -, h2⟩
    split at h2
    · simp at h2
    · simp only [List.mem_singleton] at h2
      subst h2
      simp

theorem validateWorker_mem (w : Worker) (e : ValidationError)
    (he : e ∈ validateWorker w) :
    e.entityType = EntityType.workers ∧
      (e.field = "MaxLoadPerPhase" ∨ e.field = "MaxConcurrent" ∨ e.field = "AvailableSlots") := by
  unfold validateWorker at he
  rcases List.mem_append.1 he with h | h
  · rcases List.mem_append.1 h with h2 | h2
    · obtain ⟨v, -, -, h3⟩ := optCheck_mem h2
      simp only [List.mem_singleton] at h3
      subst h3
      simp
    · obtain ⟨v, -, -, h3⟩ := optCheck_mem h2
      simp only [List.mem_singleton] at h3
      subst h3
      simp
  · obtain ⟨v, -, -, h3⟩ := optCheck_mem h
    simp only [List.mem_singleton] at h3
    subst h3
    simp

theorem validateTask_mem (allWorkerSkills : List String) (t : Task) (e : ValidationError)
    (he : e ∈ validateTask allWorkerSkills t) :
    e.entityType = EntityType.tasks ∧ e.id = t.TaskID ∧
      (e.field = "Duration" ∨ e.field = "RequiredSkills" ∨ e.field = "PreferredPhases") := by
  unfold validateTask at he
  rcases List.mem_append.1 he with h | h
  · rcases List.mem_append.1 h with h2 | h2
    · obtain ⟨v, -, -, h3⟩ := optCheck_mem h2
      simp only [List.mem_singleton] at h3
      subst h3
      simp
    · rcases List.mem_flatMap.1 h2 with ⟨sk, -, h3⟩
      split at h3
      · simp at h3
      · simp only [List.mem_singleton] at h3
        subst h3
        simp
  · obtain ⟨v, -, -, h3⟩ := optCheck_mem h
    simp only [List.mem_singleton] at h3
    subst h3
    simp

theorem coverageChunk_mem (wsk : List String) (skills : List String) (e : ValidationError)
    (he : e ∈ skills.flatMap fun skill =>
      if skill ∈ wsk then ([] : List ValidationError)
      else
        [{ entityType := EntityType.tasks, id := "Global", field := "Skill Coverage",
           message := "The skill \x27" ++ skill ++ "\x27 is required by a task but not provided by any worker." }]) :
    e.entityType = EntityType.tasks ∧ e.id = "Global" ∧ e.field = "Skill Coverage" := by
  rcases List.mem_flatMap.1 he with ⟨sk, -, h⟩
  split at h
  · simp at h
  · simp only [List.mem_singleton] at h
    subst h
    simp

/- The stateful seen-set loop is equivalent to the positional description: an
   entity at position `i` is flagged missing when its id is empty, and flagged
   duplicate when its id already occurs among the ids before position `i` (or in
   the initial seen set). -/
theorem checkDuplicatesAux_eq_spec (et : EntityType) (idKey : String)
    (items : List (String × String)) :
    ∀ seen : List String,
      checkDuplicatesAux et idKey items seen =
        (List.range items.length).flatMap fun i =>
          if (items.getD i ("", "")).2 = "" then
            [{ entityType := et, id := (items.getD i ("", "")).1, field := idKey,
               message := "Required ID is missing." }]
          else if (items.getD i ("", "")).2 ∈ seen ∨
              (items.getD i ("", "")).2 ∈ (items.take i).map Prod.snd then
            [{ entityType := et, id := (items.getD i ("", "")).2, field := idKey,
               message := "Duplicate ID found: " ++ (items.getD i ("", "")).2 ++ "." }]
          else [] := by
  induction items with
  | nil =>
    intro seen
    simp [checkDuplicatesAux]
  | cons hd rest ih =>
    intro seen
    obtain ⟨iid, did⟩ := hd
    simp only [checkDuplicatesAux]
    rw [ih (did :: seen), List.length_cons, List.range_succ_eq_map, List.flatMap_cons,
      List.flatMap_map]
    simp only [List.getD_cons_zero, List.getD_cons_succ, List.take_zero, List.take_succ_cons,
      List.map_nil, List.map_cons, List.not_mem_nil, or_false, List.mem_cons, Function.comp]
    congr 1
    apply flatMap_congr_fun
    intro i
    by_cases h0 : (rest.getD i ("", "")).2 = ""
    · rw [if_pos h0, if_pos h0]
    · rw [if_neg h0, if_neg h0]
      apply if_congr ?_ rfl rfl
      tauto

theorem checkDuplicates_eq_spec (et : EntityType) (idKey : String)
    (items : List (String × String)) :
    checkDuplicates et idKey items = duplicateScanSpec et idKey items := by
  rw [checkDuplicates, checkDuplicatesAux_eq_spec et idKey items []]
  unfold duplicateScanSpec
  congr 1
  funext i
  by_cases h0 : (items.getD i ("", "")).2 = ""
  · simp [h0]
  · simp [h0]

/-- Claim C1: per collection (clients, workers, tasks, in that order) the
validator scans entities in store order with a seen-id set; the first occurrence
of a domain id is never flagged, every second and later occurrence of the same id
is flagged "Duplicate ID found: <id>.", and every entity whose domain id is
missing or empty is flagged "Required ID is missing." independent of duplication.
Stated as: the error list of `validateAllData` opens with the three positional
duplicate-scan descriptions, followed by the non-duplicate checks. -/
theorem claim_C1_duplicate_scan (store : EntityStore) :
    (validateAllData store).1 =
      duplicateScanSpec EntityType.clients "ClientID" (store.clients.map fun c => (c.id, c.ClientID)) ++
      duplicateScanSpec EntityType.workers "WorkerID" (store.workers.map fun w => (w.id, w.WorkerID)) ++
      duplicateScanSpec EntityType.tasks "TaskID" (store.tasks.map fun t => (t.id, t.TaskID)) ++
      nonDuplicateErrors store := by
  unfold validateAllData nonDuplicateErrors
  rw [checkDuplicates_eq_spec, checkDuplicates_eq_spec, checkDuplicates_eq_spec]
  simp [List.append_assoc]

/- A chunk contributes nothing to a predicate that its error shapes cannot satisfy. -/

theorem countP_checkDuplicates_zero (et : EntityType) (idKey : String)
    (items : List (String × String)) (q : ValidationError → Bool)
    (h : ∀ e, e.entityType = et → e.field = idKey → q e = false) :
    (checkDuplicates et idKey items).countP q = 0 := by
  apply List.countP_eq_zero.mpr
  intro e he
  obtain ⟨h1, h2⟩ := checkDuplicatesAux_mem et idKey items [] e he
  simp [h e h1 h2]

theorem countP_clientChunk_zero (allTaskIds : List String) (cs : List Client)
    (q : ValidationError → Bool) (h : ∀ e, e.entityType = EntityType.clients → q e = false) :
    (cs.flatMap fun c => validateClient allTaskIds c).countP q = 0 := by
  apply countP_flatMap_zero
  intro c _
  apply List.countP_eq_zero.mpr
  intro e he
  simp [h e (validateClient_mem allTaskIds c e he).1]

theorem countP_workerChunk_zero (ws : List Worker)
    (q : ValidationError → Bool) (h : ∀ e, e.entityType = EntityType.workers → q e = false) :
    (ws.flatMap fun w => validateWorker w).countP q = 0 := by
  apply countP_flatMap_zero
  intro w _
  apply List.countP_eq_zero.mpr
  intro e he
  simp [h e (validateWorker_mem w e he).1]

theorem countP_taskChunk_zero (allWorkerSkills : List String) (ts : List Task)
    (q : ValidationError → Bool)
    (h : ∀ e, e.entityType = EntityType.tasks →
        (e.field = "Duration" ∨ e.field = "RequiredSkills" ∨ e.field = "PreferredPhases") →
        q e = false) :
    (ts.flatMap fun t => validateTask allWorkerSkills t).countP q = 0 := by
  apply countP_flatMap_zero
  intro t _
  apply List.countP_eq_zero.mpr
  intro e he
  obtain ⟨h1, -, h3⟩ := validateTask_mem allWorkerSkills t e he
  simp [h e h1 h3]

theorem countP_coverageChunk_zero (wsk : List String) (skills : List String)
    (q : ValidationError → Bool) (h : ∀ e, e.field = "Skill Coverage" → q e = false) :
    (skills.flatMap fun skill =>
      if skill ∈ wsk then ([] : List ValidationError)
      else
        [{ entityType := EntityType.tasks, id := "Global", field := "Skill Coverage",
           message := "The skill \x27" ++ skill ++ "\x27 is required by a task but not provided by any worker." }]).countP q = 0 := by
  apply List.countP_eq_zero.mpr
  intro e he
  obtain ⟨-, -, h3⟩ := coverageChunk_mem wsk skills e he
  simp [h e h3]

/- The PriorityLevel count contributed by one client. -/
theorem countP_validateClient_PL (allTaskIds : List String) (c : Client) :
    (validateClient allTaskIds c).countP (isFieldError EntityType.clients "PriorityLevel") =
      (match c.PriorityLevel with
       | some pl => if pl ≠ 0 ∧ (pl < 1 ∨ pl > 5) then 1 else 0
       | none => 0) := by
  have h3 : ((c.RequestedTaskIDs.getD []).flatMap fun tid =>
      if tid ∈ allTaskIds then ([] : List ValidationError)
      else
        [{ entityType := EntityType.clients, id := c.ClientID, field := "RequestedTaskIDs",
           message := "Unknown TaskID: " ++ tid ++ "." }]).countP
        (isFieldError EntityType.clients "PriorityLevel") = 0 := by
    apply countP_flatMap_zero
    intro tid _
    split
    · simp
    · simp [isFieldError]
  unfold validateClient
  rw [List.countP_append, List.countP_append, countP_optCheck, countP_optCheck, h3]
  rcases hpl : c.PriorityLevel with _ | pl <;> rcases hat : c.AttributesJSON with _ | attrs <;>
    simp [countP_singleton, isFieldError]

/-- Claim C2 (amended): for a client in the store, the validator emits exactly one
PriorityLevel range error when PriorityLevel is present, nonzero and outside
[1,5] — in particular exactly one error for PriorityLevel = 6 — and no
PriorityLevel error when PriorityLevel = 3.  Contrary to the original claim,
PriorityLevel = 0 emits no error: the JS truthiness guard
`c.PriorityLevel && (...)` treats 0 as absent. -/
theorem claim_C2_priority_range (ws : List Worker) (ts : List Task) (c : Client) :
    ((validateAllData { clients := [c], workers := ws, tasks := ts }).1.countP
        (isFieldError EntityType.clients "PriorityLevel")) =
      (match c.PriorityLevel with
       | some pl => if pl ≠ 0 ∧ (pl < 1 ∨ pl > 5) then 1 else 0
       | none => 0) := by
  simp only [validateAllData, List.countP_append]
  rw [countP_checkDuplicates_zero, countP_checkDuplicates_zero, countP_checkDuplicates_zero,
    countP_workerChunk_zero, countP_taskChunk_zero, countP_coverageChunk_zero]
  · simp only [List.flatMap_cons, List.flatMap_nil, List.append_nil]
    rw [countP_validateClient_PL]
    rcases c.PriorityLevel with _ | pl <;> simp
  · intro e h1
    simp [isFieldError, h1]
  · intro e h1 h3
    simp [isFieldError, h1]
  · intro e h1
    simp [isFieldError, h1]
  · intro e h1 h2
    simp [isFieldError, h2]
  · intro e h1 h2
    simp [isFieldError, h2]
  · intro e h1 h2
    simp [isFieldError, h2]

/-- Claim C2 counterexample: the claim demands exactly one PriorityLevel error for
a client with PriorityLevel = 0, but the validator emits none — the JS
truthiness guard `c.PriorityLevel && (...)` skips the falsy value 0. -/
theorem claim_C2_counterexample :
    ¬ ((validateAllData
        { clients := [{ id := "r1", ClientID := "C1", PriorityLevel := some 0 }],
          workers := [], tasks := [] }).1.countP
          (isFieldError EntityType.clients "PriorityLevel") = 1) := by
  decide

/- MaxLoadPerPhase / MaxConcurrent counts contributed by one worker. -/

theorem countP_validateWorker_ML (w : Worker) :
    (validateWorker w).countP (isFieldError EntityType.workers "MaxLoadPerPhase") =
      (match w.MaxLoadPerPhase with
       | some ml => if ml ≠ 0 ∧ ml < 0 then 1 else 0
       | none => 0) := by
  unfold validateWorker
  rw [List.countP_append, List.countP_append, countP_optCheck, countP_optCheck, countP_optCheck]
  rcases w.MaxLoadPerPhase with _ | ml <;> rcases w.MaxConcurrent with _ | mc <;>
    rcases w.AvailableSlots with _ | slots <;>
    simp [countP_singleton, isFieldError]

theorem countP_validateWorker_MC (w : Worker) :
    (validateWorker w).countP (isFieldError EntityType.workers "MaxConcurrent") =
      (match w.MaxConcurrent with
       | some mc => if mc ≠ 0 ∧ mc < 1 then 1 else 0
       | none => 0) := by
  unfold validateWorker
  rw [List.countP_append, List.countP_append, countP_optCheck, countP_optCheck, countP_optCheck]
  rcases w.MaxLoadPerPhase with _ | ml <;> rcases w.MaxConcurrent with _ | mc <;>
    rcases w.AvailableSlots with _ | slots <;>
    simp [countP_singleton, isFieldError]

/-- Claim C6 (amended): for a worker in the store, the validator emits exactly one
MaxLoadPerPhase error when MaxLoadPerPhase is present and negative, and exactly
one MaxConcurrent error when MaxConcurrent is present, nonzero and below 1.
Contrary to the original claim, MaxConcurrent = 0 emits no error: the JS
truthiness guard `w.MaxConcurrent && (...)` treats 0 as absent. -/
theorem claim_C6_worker_bounds (cs : List Client) (ts : List Task) (w : Worker) :
    ((validateAllData { clients := cs, workers := [w], tasks := ts }).1.countP
        (isFieldError EntityType.workers "MaxLoadPerPhase") =
      (match w.MaxLoadPerPhase with
       | some ml => if ml ≠ 0 ∧ ml < 0 then 1 else 0
       | none => 0)) ∧
    ((validateAllData { clients := cs, workers := [w], tasks := ts }).1.countP
        (isFieldError EntityType.workers "MaxConcurrent") =
      (match w.MaxConcurrent with
       | some mc => if mc ≠ 0 ∧ mc < 1 then 1 else 0
       | none => 0)) := by
  constructor
  · simp only [validateAllData, List.countP_append]
    rw [countP_checkDuplicates_zero, countP_checkDuplicates_zero, countP_checkDuplicates_zero,
      countP_clientChunk_zero, countP_taskChunk_zero, countP_coverageChunk_zero]
    · simp only [List.flatMap_cons, List.flatMap_nil, List.append_nil]
      rw [countP_validateWorker_ML]
      rcases w.MaxLoadPerPhase with _ | ml <;> simp
    · intro e h1
      simp [isFieldError, h1]
    · intro e h1 h3
      simp [isFieldError, h1]
    · intro e h1
      simp [isFieldError, h1]
    · intro e h1 h2
      simp [isFieldError, h2]
    · intro e h1 h2
      simp [isFieldError, h2]
    · intro e h1 h2
      simp [isFieldError, h1]
  · simp only [validateAllData, List.countP_append]
    rw [countP_checkDuplicates_zero, countP_checkDuplicates_zero, countP_checkDuplicates_zero,
      countP_clientChunk_zero, countP_taskChunk_zero, countP_coverageChunk_zero]
    · simp only [List.flatMap_cons, List.flatMap_nil, List.append_nil]
      rw [countP_validateWorker_MC]
      rcases w.MaxConcurrent with _ | mc <;> simp
    · intro e h1
      simp [isFieldError, h1]
    · intro e h1 h3
      simp [isFieldError, h1]
    · intro e h1
      simp [isFieldError, h1]
    · intro e h1 h2
      simp [isFieldError, h2]
    · intro e h1 h2
      simp [isFieldError, h2]
    · intro e h1 h2
      simp [isFieldError, h1]

/-- Claim C6 counterexample: the claim demands a MaxConcurrent error for
MaxConcurrent = 0 (0 < 1), but the validator emits none for a worker whose
MaxConcurrent is exactly 0. -/
theorem claim_C6_counterexample :
    (({ id := "w1", WorkerID := "W1", MaxConcurrent := some 0 } : Worker).MaxConcurrent = some 0 ∧
      (0 : Int) < 1) ∧
    ¬ (1 ≤ (validateAllData
        { clients := [], workers := [{ id := "w1", WorkerID := "W1", MaxConcurrent := some 0 }],
          tasks := [] }).1.countP (isFieldError EntityType.workers "MaxConcurrent")) := by
  decide

/- The AvailableSlots error of one worker with a non-numeric slot entry. -/
theorem validateWorker_slots_single (w : Worker) (slots : List String)
    (hs : w.AvailableSlots = some slots) (hbad : slots.any jsNumberIsNaN = true) :
    (validateWorker w).countP (isFieldError EntityType.workers "AvailableSlots") = 1 ∧
    ({ entityType := EntityType.workers, id := w.WorkerID, field := "AvailableSlots",
       message := "Contains non-numeric values.",
       suggestion := some (joinWith ", " (slots.map stripNonDigits)) } : ValidationError) ∈
      validateWorker w := by
  constructor
  · unfold validateWorker
    rw [List.countP_append, List.countP_append, countP_optCheck, countP_optCheck, countP_optCheck,
      hs]
    rcases w.MaxLoadPerPhase with _ | ml <;> rcases w.MaxConcurrent with _ | mc <;>
      simp [countP_singleton, isFieldError, hbad]
  · unfold validateWorker
    apply List.mem_append.2
    right
    rw [hs]
    simp [optCheck, hbad]

/-- Claim C5: for a worker whose AvailableSlots contains an element that does not
parse as a number, the validator emits exactly one AvailableSlots error, whose
suggestion equals the slots with all non-digit characters stripped, rejoined
with ", ". -/
theorem claim_C5_slots_suggestion (cs : List Client) (ts : List Task) (w : Worker)
    (slots : List String) (hs : w.AvailableSlots = some slots)
    (hbad : slots.any jsNumberIsNaN = true) :
    ((validateAllData { clients := cs, workers := [w], tasks := ts }).1.countP
        (isFieldError EntityType.workers "AvailableSlots") = 1) ∧
    ({ entityType := EntityType.workers, id := w.WorkerID, field := "AvailableSlots",
       message := "Contains non-numeric values.",
       suggestion := some (joinWith ", " (slots.map stripNonDigits)) } : ValidationError) ∈
      (validateAllData { clients := cs, workers := [w], tasks := ts }).1 := by
  obtain ⟨hcount, hmem⟩ := validateWorker_slots_single w slots hs hbad
  constructor
  · simp only [validateAllData, List.countP_append]
    rw [countP_checkDuplicates_zero, countP_checkDuplicates_zero, countP_checkDuplicates_zero,
      countP_clientChunk_zero, countP_taskChunk_zero, countP_coverageChunk_zero]
    · simp only [List.flatMap_cons, List.flatMap_nil, List.append_nil]
      rw [hcount]
    · intro e h1
      simp [isFieldError, h1]
    · intro e h1 h3
      simp [isFieldError, h1]
    · intro e h1
      simp [isFieldError, h1]
    · intro e h1 h2
      simp [isFieldError, h2]
    · intro e h1 h2
      simp [isFieldError, h2]
    · intro e h1 h2
      simp [isFieldError, h1]
  · simp only [validateAllData, List.mem_append, List.flatMap_cons, List.flatMap_nil,
      List.append_nil]
    tauto

/- Example workers for the slots witnesses. -/
def exampleSlotsWorker : Worker :=
  { id := "w1", WorkerID := "W1", AvailableSlots := some ["1", "x2", "3"] }

def exampleTwoBadSlotsWorker : Worker :=
  { id := "w1", WorkerID := "W1", AvailableSlots := some ["x", "y2", "3"] }

/-- Claim C5 witness: worker AvailableSlots ["1","x2","3"] yields one
AvailableSlots error whose suggestion is exactly "1, 2, 3". -/
theorem claim_C5_witness :
    ((validateAllData { clients := [], workers := [exampleSlotsWorker], tasks := [] }).1.countP
        (isFieldError EntityType.workers "AvailableSlots") = 1) ∧
    ({ entityType := EntityType.workers, id := "W1", field := "AvailableSlots",
       message := "Contains non-numeric values.",
       suggestion := some "1, 2, 3" } : ValidationError) ∈
      (validateAllData { clients := [], workers := [exampleSlotsWorker], tasks := [] }).1 :=
  claim_C5_slots_suggestion [] [] exampleSlotsWorker ["1", "x2", "3"] rfl (by decide)

/-- Claim C10: for a worker whose AvailableSlots contains two or more elements
that do not parse as numbers, the validator still emits exactly one
AvailableSlots error (never one per malformed element), and the suggestion is
built from every element of the list, numeric elements included. -/
theorem claim_C10_one_error_per_worker (cs : List Client) (ts : List Task) (w : Worker)
    (slots : List String) (hs : w.AvailableSlots = some slots)
    (hbad2 : 2 ≤ slots.countP jsNumberIsNaN) :
    ((validateAllData { clients := cs, workers := [w], tasks := ts }).1.countP
        (isFieldError EntityType.workers "AvailableSlots") = 1) ∧
    ({ entityType := EntityType.workers, id := w.WorkerID, field := "AvailableSlots",
       message := "Contains non-numeric values.",
       suggestion := some (joinWith ", " (slots.map stripNonDigits)) } : ValidationError) ∈
      (validateAllData { clients := cs, workers := [w], tasks := ts }).1 := by
  have hbad : slots.any jsNumberIsNaN = true := by
    rcases List.countP_pos_iff.1 (by omega : 0 < slots.countP jsNumberIsNaN) with ⟨a, ha, hpa⟩
    exact List.any_eq_true.2 ⟨a, ha, hpa⟩
  obtain ⟨hcount, hmem⟩ := validateWorker_slots_single w slots hs hbad
  constructor
  · simp only [validateAllData, List.countP_append]
    rw [countP_checkDuplicates_zero, countP_checkDuplicates_zero, countP_checkDuplicates_zero,
      countP_clientChunk_zero, countP_taskChunk_zero, countP_coverageChunk_zero]
    · simp only [List.flatMap_cons, List.flatMap_nil, List.append_nil]
      rw [hcount]
    · intro e h1
      simp [isFieldError, h1]
    · intro e h1 h3
      simp [isFieldError, h1]
    · intro e h1
      simp [isFieldError, h1]
    · intro e h1 h2
      simp [isFieldError, h2]
    · intro e h1 h2
      simp [isFieldError, h2]
    · intro e h1 h2
      simp [isFieldError, h1]
  · simp only [validateAllData, List.mem_append, List.flatMap_cons, List.flatMap_nil,
      List.append_nil]
    tauto

/-- Claim C10 witness: AvailableSlots ["x","y2","3"] has two non-numeric entries
yet yields exactly one AvailableSlots error; its suggestion ", 2, 3" is built
from all three elements, the numeric "3" included. -/
theorem claim_C10_witness :
    ((validateAllData { clients := [], workers := [exampleTwoBadSlotsWorker], tasks := [] }).1.countP
        (isFieldError EntityType.workers "AvailableSlots") = 1) ∧
    ({ entityType := EntityType.workers, id := "W1", field := "AvailableSlots",
       message := "Contains non-numeric values.",
       suggestion := some ", 2, 3" } : ValidationError) ∈
      (validateAllData { clients := [], workers := [exampleTwoBadSlotsWorker], tasks := [] }).1 :=
  claim_C10_one_error_per_worker [] [] exampleTwoBadSlotsWorker ["x", "y2", "3"] rfl (by decide)

/- Counting the per-task RequiredSkills errors for one uncovered skill. -/
theorem countP_rsChunk (wsk : List String) (tid s : String) (hs : s ∉ wsk)
    (req : List String) :
    (req.flatMap fun skill =>
        if skill ∈ wsk then ([] : List ValidationError)
        else
          [{ entityType := EntityType.tasks, id := tid, field := "RequiredSkills",
             message := "No worker has the required skill: " ++ skill ++ "." }]).countP
      (isRequiredSkillError tid s) = req.countP fun x => x = s := by
  induction req with
  | nil => simp
  | cons sk req ih =>
    rw [List.flatMap_cons, List.countP_append, ih, List.countP_cons]
    by_cases hmem : sk ∈ wsk
    · have hne : ¬ (sk = s) := by
        intro h
        exact hs (h ▸ hmem)
      simp [hmem, hne]
    · rw [if_neg hmem, countP_singleton]
      have hq : isRequiredSkillError tid s
          { entityType := EntityType.tasks, id := tid, field := "RequiredSkills",
            message := "No worker has the required skill: " ++ sk ++ "." } = decide (sk = s) := by
        by_cases h : sk = s
        · subst h
          simp [isRequiredSkillError]
        · simp [isRequiredSkillError, h, append_mid_inj]
      rw [hq]
      exact Nat.add_comm _ _

/- Counting the global Skill Coverage errors for one uncovered skill. -/
theorem countP_covChunk (wsk : List String) (s : String) (hs : s ∉ wsk)
    (skills : List String) :
    (skills.flatMap fun skill =>
        if skill ∈ wsk then ([] : List ValidationError)
        else
          [{ entityType := EntityType.tasks, id := "Global", field := "Skill Coverage",
             message := "The skill \x27" ++ skill ++ "\x27 is required by a task but not provided by any worker." }]).countP
      (isCoverageError s) = skills.countP fun x => x = s := by
  induction skills with
  | nil => simp
  | cons sk skills ih =>
    rw [List.flatMap_cons, List.countP_append, ih, List.countP_cons]
    by_cases hmem : sk ∈ wsk
    · have hne : ¬ (sk = s) := by
        intro h
        exact hs (h ▸ hmem)
      simp [hmem, hne]
    · rw [if_neg hmem, countP_singleton]
      have hq : isCoverageError s
          { entityType := EntityType.tasks, id := "Global", field := "Skill Coverage",
            message := "The skill \x27" ++ sk ++ "\x27 is required by a task but not provided by any worker." } = decide (sk = s) := by
        by_cases h : sk = s
        · subst h
          simp [isCoverageError]
        · simp [isCoverageError, h, append_mid_inj]
      rw [hq]
      exact Nat.add_comm _ _

/- A JS Set contains each inserted element exactly once, in first-occurrence
   order. -/
theorem countP_dedupFirstAux (s : String) (l : List String) :
    ∀ seen : List String,
      (dedupFirstAux l seen).countP (fun x => x = s) = if s ∈ l ∧ s ∉ seen then 1 else 0 := by
  induction l with
  | nil =>
    intro seen
    simp [dedupFirstAux]
  | cons x xs ih =>
    intro seen
    simp only [dedupFirstAux]
    by_cases hx : x ∈ seen
    · rw [if_pos hx, ih seen]
      apply if_congr ?_ rfl rfl
      constructor
      · rintro ⟨h1, h2⟩
        exact ⟨List.mem_cons_of_mem x h1, h2⟩
      · rintro ⟨h1, h2⟩
        rcases List.mem_cons.1 h1 with h | h
        · exact absurd (h ▸ hx) h2
        · exact ⟨h, h2⟩
    · rw [if_neg hx, List.countP_cons, ih (x :: seen)]
      by_cases hxs : x = s
      · subst hxs
        simp [List.mem_cons, hx]
      · have hsx : ¬ (s = x) := fun h => hxs h.symm
        simp [List.mem_cons, hxs, hsx]

theorem countP_dedupFirst (s : String) (l : List String) :
    (dedupFirst l).countP (fun x => x = s) = if s ∈ l then 1 else 0 := by
  rw [dedupFirst, countP_dedupFirstAux]
  simp

theorem mem_of_countP_eq_one {l : List String} {s : String}
    (h : l.countP (fun x => x = s) = 1) : s ∈ l := by
  by_contra hs
  have h0 : l.countP (fun x => x = s) = 0 := by
    apply List.countP_eq_zero.mpr
    intro a ha
    simp only [decide_eq_true_eq]
    rintro rfl
    exact hs ha
  omega

/- The RequiredSkills count contributed by one task. -/
theorem countP_validateTask_RS (wsk : List String) (t : Task) (s : String) (hs : s ∉ wsk) :
    (validateTask wsk t).countP (isRequiredSkillError t.TaskID s) =
      (t.RequiredSkills.getD []).countP fun x => x = s := by
  unfold validateTask
  rw [List.countP_append, List.countP_append, countP_optCheck, countP_optCheck,
    countP_rsChunk wsk t.TaskID s hs]
  rcases t.Duration with _ | d <;> rcases t.PreferredPhases with _ | ps <;>
    simp [countP_singleton, isRequiredSkillError]

/-- Claim C3: for a task requiring a skill `s` (listed once in its RequiredSkills)
that no worker provides, the validator emits exactly one per-task RequiredSkills
error for that task, plus exactly one additional global error with entityType
`tasks`, id "Global" and field "Skill Coverage" for the skill. -/
theorem claim_C3_skill_coverage (cs : List Client) (ws : List Worker) (t : Task) (s : String)
    (hcount : (t.RequiredSkills.getD []).countP (fun x => x = s) = 1)
    (hs : s ∉ ws.flatMap fun w => w.Skills.getD []) :
    ((validateAllData { clients := cs, workers := ws, tasks := [t] }).1.countP
        (isRequiredSkillError t.TaskID s) = 1) ∧
    ((validateAllData { clients := cs, workers := ws, tasks := [t] }).1.countP
        (isCoverageError s) = 1) := by
  constructor
  · simp only [validateAllData, List.countP_append]
    rw [countP_checkDuplicates_zero, countP_checkDuplicates_zero, countP_checkDuplicates_zero,
      countP_clientChunk_zero, countP_workerChunk_zero]
    · simp only [List.flatMap_cons, List.flatMap_nil, List.append_nil]
      rw [countP_validateTask_RS _ _ _ hs, hcount, countP_coverageChunk_zero]
      intro e h3
      simp [isRequiredSkillError, h3]
    · intro e h1
      simp [isRequiredSkillError, h1]
    · intro e h1
      simp [isRequiredSkillError, h1]
    · intro e h1 h2
      simp [isRequiredSkillError, h2]
    · intro e h1 h2
      simp [isRequiredSkillError, h1]
    · intro e h1 h2
      simp [isRequiredSkillError, h1]
  · simp only [validateAllData, List.countP_append]
    rw [countP_checkDuplicates_zero, countP_checkDuplicates_zero, countP_checkDuplicates_zero,
      countP_clientChunk_zero, countP_workerChunk_zero, countP_taskChunk_zero]
    · simp only [List.flatMap_cons, List.flatMap_nil, List.append_nil]
      rw [countP_covChunk _ _ hs, countP_dedupFirst,
        if_pos (by simpa using mem_of_countP_eq_one hcount)]
    · intro e h1 h2
      rcases h2 with h2 | h2 | h2 <;> simp [isCoverageError, h2]
    · intro e h1
      simp [isCoverageError, h1]
    · intro e h1
      simp [isCoverageError, h1]
    · intro e h1 h2
      simp [isCoverageError, h2]
    · intro e h1 h2
      simp [isCoverageError, h1]
    · intro e h1 h2
      simp [isCoverageError, h1]

/- Example task for the Rust witness. -/
def exampleRustTask : Task :=
  { id := "t1", TaskID := "T1", RequiredSkills := some ["Rust"] }

/-- Claim C3 witness: a task with RequiredSkills ["Rust"] and no worker providing
"Rust" yields one per-task RequiredSkills error and one Global Skill Coverage
error. -/
theorem claim_C3_witness :
    ((validateAllData { clients := [], workers := [], tasks := [exampleRustTask] }).1.countP
        (isRequiredSkillError "T1" "Rust") = 1) ∧
    ((validateAllData { clients := [], workers := [], tasks := [exampleRustTask] }).1.countP
        (isCoverageError "Rust") = 1) :=
  claim_C3_skill_coverage [] [] exampleRustTask "Rust" (by decide) (by decide)

/-- Claim C4: validation is deterministic and idempotent — the validator is a
pure function of the entity store, so validating an unchanged store twice (or
any two identical stores) yields identical error lists and identical suggestion
lists, in identical order. -/
theorem claim_C4_deterministic (s t : EntityStore) (h : s = t) :
    (validateAllData s).1 = (validateAllData t).1 ∧
    (validateAllData s).2 = (validateAllData t).2 := by
  subst h
  exact ⟨rfl, rfl⟩

/-- Claim C4 witness: two runs on the same concrete store agree. -/
theorem claim_C4_witness :
    (validateAllData { clients := [], workers := [], tasks := [exampleRustTask] }).1 =
      (validateAllData { clients := [], workers := [], tasks := [exampleRustTask] }).1 ∧
    (validateAllData { clients := [], workers := [], tasks := [exampleRustTask] }).2 =
      (validateAllData { clients := [], workers := [], tasks := [exampleRustTask] }).2 :=
  claim_C4_deterministic
    { clients := [], workers := [], tasks := [exampleRustTask] }
    { clients := [], workers := [], tasks := [exampleRustTask] } rfl

/- A client whose AttributesJSON does not parse as JSON. -/
def exampleBadJsonClient : Client :=
  { id := "r1", ClientID := "C1", AttributesJSON := some "not json" }

/-- Claim C7: the validator never raises — it is a total function returning a
result for every store; malformed values such as an unparseable AttributesJSON
degrade to a diagnostic entry instead of a halt, and empty collections produce
zero errors (and zero suggestions). -/
theorem claim_C7_never_raises :
    (∀ store : EntityStore, ∃ r, validateAllData store = r) ∧
    validateAllData { clients := [], workers := [], tasks := [] } = ([], []) ∧
    validateAllData { clients := [exampleBadJsonClient], workers := [], tasks := [] } =
      ([{ entityType := EntityType.clients, id := "C1", field := "AttributesJSON",
          message := "Invalid JSON format." }], []) := by
  refine ⟨fun store => ⟨_, rfl⟩, by decide, by decide⟩

/-- Claim C8: a candidate rule from the external translator is accepted and
appended only when both the type field and the params field are present (a
missing or empty type, or missing params, reports a failure and leaves the
registry unchanged); on failure the registry is always returned unchanged. -/
theorem claim_C8_rule_shape (rules : List Rule) (newId : String) :
    (∀ p, handleNaturalLanguageConvert rules newId { type := none, params := p } =
      (rules, false)) ∧
    (∀ t, handleNaturalLanguageConvert rules newId { type := t, params := none } =
      (rules, false)) ∧
    (∀ t p, t ≠ "" →
      handleNaturalLanguageConvert rules newId { type := some t, params := some p } =
        (rules ++ [{ id := newId, type := t, params := p }], true)) ∧
    (∀ resp : CandidateRule, (handleNaturalLanguageConvert rules newId resp).2 = false →
      (handleNaturalLanguageConvert rules newId resp).1 = rules) := by
  refine ⟨?_, ?_, ?_, ?_⟩
  · intro p
    rcases p with _ | p <;> rfl
  · intro t
    rcases t with _ | t <;> rfl
  · intro t p ht
    simp [handleNaturalLanguageConvert, ht]
  · intro resp hfail
    rcases resp with ⟨t, p⟩
    rcases t with _ | t <;> rcases p with _ | p
    · rfl
    · rfl
    · rfl
    · by_cases ht : t = ""
      · simp [handleNaturalLanguageConvert, ht]
      · simp [handleNaturalLanguageConvert, ht] at hfail

/-- Claim C8 witness: a candidate missing params is rejected leaving the registry
empty, while a complete CO_RUN candidate is appended. -/
theorem claim_C8_witness :
    (handleNaturalLanguageConvert [] "r1" { type := some "CO_RUN", params := none } =
      ([], false)) ∧
    (handleNaturalLanguageConvert [] "r1"
        { type := some "CO_RUN", params := some { taskIds := ["T1", "T2"] } } =
      ([{ id := "r1", type := "CO_RUN", params := { taskIds := ["T1", "T2"] } }], true)) := by
  constructor
  · exact (claim_C8_rule_shape [] "r1").2.1 (some "CO_RUN")
  · exact (claim_C8_rule_shape [] "r1").2.2.1 "CO_RUN" { taskIds := ["T1", "T2"] } (by decide)

/-- Claim C9: fixes and manual cell edits use uniform coercion — a list-typed
field is split on commas, trimmed, empties dropped, then re-joined to match the
stored scalar-vs-list representation of the field; a numeric field whose value fails
to parse is stored as 0 rather than raising. -/
theorem claim_C9_uniform_coercion (field : String) (oldValue : CellValue) (value : String)
    (s0 : String) (l0 : List String) :
    (field ∈ listTypedFields →
      coerceCellValue field (CellValue.str s0) value =
        CellValue.str (joinWith ", " (splitTrimFilter value)) ∧
      coerceCellValue field (CellValue.arr l0) value = CellValue.arr (splitTrimFilter value)) ∧
    (field ∈ numericTypedFields → parseIntJS value = none →
      coerceCellValue field oldValue value = CellValue.str "0") := by
  constructor
  · intro hf
    constructor <;> simp [coerceCellValue, hf]
  · intro hf hp
    have hnl : field ∉ listTypedFields := by
      intro hl
      simp [numericTypedFields] at hf
      rcases hf with rfl | rfl | rfl | rfl <;> simp [listTypedFields] at hl
    simp [coerceCellValue, hnl, hf, hp, jsIntOrZero]
    rfl

/-- Claim C9 witness: editing a list-typed field keeps its representation (string
stays a ", "-joined string, array stays an array), and an unparseable numeric
edit is stored as "0". -/
theorem claim_C9_witness :
    (coerceCellValue "Skills" (CellValue.str "old") "a, ,b" = CellValue.str "a, b" ∧
      coerceCellValue "Skills" (CellValue.arr ["old"]) "a, ,b" = CellValue.arr ["a", "b"]) ∧
    coerceCellValue "Duration" (CellValue.num 3) "abc" = CellValue.str "0" := by
  constructor
  · exact (claim_C9_uniform_coercion "Skills" (CellValue.num 0) "a, ,b" "old" ["old"]).1
      (by decide)
  · exact (claim_C9_uniform_coercion "Duration" (CellValue.num 3) "abc" "x" []).2
      (by decide) (by decide)

end DataAlchemist
